import Mathlib

/-
Verification of the Notion OAuth connection provider
(src/core/src/oauth/providers/notion.rs) against its design specification.

The provider is embedded shallowly:
  * serde_json values become the inductive `Json` (numbers as `Int`; the
    claims under study never inspect numeric values, only shapes and strings);
  * `serde_json::Map` becomes an association list with unique keys, so
    `map.remove(k)` coincides with filtering out the entries whose key is `k`;
  * fallible Rust functions returning `Result` become `Except`;
  * the single network round-trip of `finalize` is abstracted by passing the
    outcome of `execute_request` (after `handle_provider_request_error`
    mapping) as an explicit `Except ProviderError Json` argument;
  * the two `lazy_static` globals become explicit state passing over an
    `OAuthGlobals` cache, with the environment as a function
    `String → Option String` and a panic modelled as `Except String`.
-/

namespace NotionOAuth

/-- Shallow embedding of `serde_json::Value`.  Objects are association lists
of key/value pairs; serde maps have unique keys, so `Map::remove` on them
agrees with filtering the list. -/
inductive Json where
  | null : Json
  | bool : Bool → Json
  | num : Int → Json
  | str : String → Json
  | arr : List Json → Json
  | obj : List (String × Json) → Json

/-- First value bound to key `k`, as `serde_json::Map::get`. -/
def lookupKey : List (String × Json) → String → Option Json
  | [], _ => none
  | p :: rest, k => if p.fst == k then some p.snd else lookupKey rest k

/-- Embedding of `value[k].as_str()`: indexing a non-object (or a missing
key) yields `Null`, and `as_str` on anything but a string yields `None`. -/
def Json.getStr : Json → String → Option String
  | .obj fields, k =>
      match lookupKey fields k with
      | some (.str s) => some s
      | _ => none
  | _, _ => none

/-- Embedding of `Value::Object` pattern-match success. -/
def Json.isObj : Json → Bool
  | .obj _ => true
  | _ => false

/-- Whether an object value carries the key `k` (false on non-objects). -/
def Json.hasKey : Json → String → Bool
  | .obj fields, k => fields.any (fun p => p.fst == k)
  | _, _ => false

/-- Lookup of key `k` in a `Json` value (none on non-objects). -/
def Json.lookup : Json → String → Option Json
  | .obj fields, k => lookupKey fields k
  | _, _ => none

/-- Modelled from the spec: the `ProviderError` taxonomy of §7 lives in
`src/core/src/oauth/connection.rs`, which is not part of this repository
snapshot; only `notion.rs` is.  The spec declares a closed set of failure
kinds, and classifies a missing `access_token` as `InvalidResponseError`
and scrubbing a non-object as `MalformedPayloadError`. -/
inductive ProviderError where
  | TransportError : String → ProviderError
  | InvalidResponseError : String → ProviderError
  | ActionNotSupportedError : String → ProviderError
  | MalformedPayloadError : String → ProviderError

/-- Modelled from the spec: `ConnectionProvider` is a vendor-identifying
enum declared outside this snapshot; only the `Notion` variant is used
here. -/
inductive ConnectionProvider where
  | Notion : ConnectionProvider

/-- Modelled from the spec: a `Connection` record (provider id, creation
time, status), declared outside this snapshot.  `finalize` and `refresh`
receive it but never inspect it. -/
structure Connection where
  provider : ConnectionProvider
  created_at : Nat
  status : String

/-- Modelled from the spec: token material backing a connection, declared
outside this snapshot. -/
structure Credential where
  access_token : String
  access_token_expiry : Option Nat
  refresh_token : Option String

/-- Modelled from the spec and the construction site in `notion.rs`:
output of a successful authorization-code exchange. -/
structure FinalizeResult where
  redirect_uri : String
  code : String
  access_token : String
  access_token_expiry : Option Nat
  refresh_token : Option String
  raw_json : Json

/-- Modelled from the spec: output of a successful token renewal, same
shape as `FinalizeResult` minus the original code. -/
structure RefreshResult where
  redirect_uri : String
  access_token : String
  access_token_expiry : Option Nat
  refresh_token : Option String
  raw_json : Json

/-- An HTTP request as assembled by the reqwest builder chain. -/
structure Request where
  method : String
  url : String
  headers : List (String × String)
  body : Option Json

/-- Embedding of `Client::post`. -/
def post (url : String) : Request :=
  { method := "POST", url := url, headers := [], body := none }

/-- Embedding of `RequestBuilder::header`. -/
def Request.header (r : Request) (k v : String) : Request :=
  { r with headers := r.headers ++ [(k, v)] }

/-- Embedding of `RequestBuilder::json`. -/
def Request.jsonBody (r : Request) (b : Json) : Request :=
  { r with body := some b }

/-- UTF-8 encoding of one scalar value, byte by byte. -/
def utf8Char (c : Char) : List Nat :=
  let n := c.toNat
  if n < 0x80 then [n]
  else if n < 0x800 then [0xC0 + n / 64, 0x80 + n % 64]
  else if n < 0x10000 then [0xE0 + n / 4096, 0x80 + n / 64 % 64, 0x80 + n % 64]
  else [0xF0 + n / 262144, 0x80 + n / 4096 % 64, 0x80 + n / 64 % 64, 0x80 + n % 64]

/-- UTF-8 bytes of a string (Rust strings are UTF-8; `encode` consumes
the bytes of the formatted `id:secret` string). -/
def utf8Bytes (s : String) : List Nat :=
  (s.data.map utf8Char).flatten

/-- The standard Base64 alphabet used by `general_purpose::STANDARD`. -/
def base64Alphabet : List Char :=
  "ABCDEFGHIJKLMNOPQRSTUVWXYZabcdefghijklmnopqrstuvwxyz0123456789+/".data

/-- Character for a 6-bit group. -/
def b64char (n : Nat) : Char :=
  base64Alphabet.getD n '='

/-- Embedding of `general_purpose::STANDARD.encode`: 3-byte blocks become
four alphabet characters; a trailing block of 1 or 2 bytes is padded
with `=`. -/
def base64Encode : List Nat → String
  | [] => ""
  | [a] => String.mk [b64char (a / 4), b64char (a % 4 * 16), '=', '=']
  | [a, b] =>
      String.mk [b64char (a / 4), b64char (a % 4 * 16 + b / 16),
                 b64char (b % 16 * 4), '=']
  | a :: b :: c :: rest =>
      String.mk [b64char (a / 4), b64char (a % 4 * 16 + b / 16),
                 b64char (b % 16 * 4 + c / 64), b64char (c % 64)]
        ++ base64Encode rest

/-- Embedding of `NotionConnectionProvider::basic_auth`: the standard
Base64 encoding of the formatted string `client_id:client_secret`, with
the two globals passed explicitly. -/
def basic_auth (client_id client_secret : String) : String :=
  base64Encode (utf8Bytes (client_id ++ ":" ++ client_secret))

/-- The JSON body built at the top of `finalize`. -/
def finalizeBody (code redirect_uri : String) : Json :=
  .obj [("grant_type", .str "authorization_code"),
        ("code", .str code),
        ("redirect_uri", .str redirect_uri)]

/-- The token-exchange request assembled by `finalize`, given the already
computed value of the `Authorization` Basic credential. -/
def requestWithAuth (auth code redirect_uri : String) : Request :=
  (((post "https://api.notion.com/v1/oauth/token").header
        "Accept" "application/json").header
      "Content-Type" "application/json").header
    "Authorization" ("Basic " ++ auth)
    |>.jsonBody (finalizeBody code redirect_uri)

/-- The token-exchange request assembled by `finalize` as a function of the
client id/secret pair. -/
def finalizeRequest (client_id client_secret code redirect_uri : String) : Request :=
  requestWithAuth (basic_auth client_id client_secret) code redirect_uri

/-- Embedding of the response-processing part of
`NotionConnectionProvider::finalize`.  `response` is the outcome of
`execute_request` after `handle_provider_request_error` mapping; the `?`
on it propagates the error.  A missing (or non-string) `access_token` is
the hard error of the spec taxonomy; on success every field of the result
is built exactly as at the `Ok(FinalizeResult { .. })` site. -/
def finalize (_connection : Connection) (_related_credentials : Option Credential)
    (code redirect_uri : String) (response : Except ProviderError Json) :
    Except ProviderError FinalizeResult :=
  match response with
  | .error e => .error e
  | .ok raw_json =>
      match raw_json.getStr "access_token" with
      | some access_token =>
          .ok { redirect_uri := redirect_uri,
                code := code,
                access_token := access_token,
                access_token_expiry := none,
                refresh_token := none,
                raw_json := raw_json }
      | none =>
          .error (.InvalidResponseError
            "Missing `access_token` in response from Notion")

/-- Embedding of `NotionConnectionProvider::refresh`.  The body is a bare
`Err(ProviderError::ActionNotSupportedError(..))`; it contains no call to
`execute_request`, which the second component (the list of requests
handed to the executor during the call) records as `[]`. -/
def refresh (_connection : Connection) (_related_credentials : Option Credential) :
    Except ProviderError RefreshResult × List Request :=
  (.error (.ActionNotSupportedError "Notion access tokens do not expire"), [])

/-- Removal of the `access_token` entry from an object's field list,
as `map.remove("access_token")` (serde map keys are unique). -/
def scrubFields (fields : List (String × Json)) : List (String × Json) :=
  fields.filter (fun p => p.fst != "access_token")

/-- Embedding of `NotionConnectionProvider::scrubbed_raw_json`: clone the
value, drop `access_token` when it is an object, error otherwise.  The
spec taxonomy classifies the non-object error (`anyhow!("Invalid
raw_json, not an object")`) as `MalformedPayloadError`. -/
def scrubbed_raw_json (raw_json : Json) : Except ProviderError Json :=
  match raw_json with
  | .obj fields => .ok (.obj (scrubFields fields))
  | _ => .error (.MalformedPayloadError "Invalid raw_json, not an object")

/-! Stateful model of the two `lazy_static` globals.

`lazy_static!` registers each static without touching its initializer; the
initializer (`env::var(..).unwrap()`) runs on the FIRST dereference of the
static and its value is cached for the rest of the process.  The process
environment is a function `String → Option String`, a panic of `unwrap`
is an `Except.error` carrying the panic message, and the caches travel as
explicit state. -/

/-- The process environment: variable name to value. -/
abbrev Env := String → Option String

/-- Cache state of the two lazily initialized statics
`OAUTH_NOTION_CLIENT_ID` and `OAUTH_NOTION_CLIENT_SECRET`. -/
structure OAuthGlobals where
  notion_client_id : Option String
  notion_client_secret : Option String

/-- Cache state right after `lazy_static!` registration: nothing read yet. -/
def startupGlobals : OAuthGlobals :=
  { notion_client_id := none, notion_client_secret := none }

/-- Modelled from the documented semantics of `lazy_static!`: process
startup registers the two statics and performs no environment read, so it
succeeds whatever the environment holds. -/
def startup (_env : Env) : Except String OAuthGlobals :=
  .ok startupGlobals

/-- One dereference of a lazy static backed by `env::var(name).unwrap()`:
a hit returns the cached value; a miss reads the environment, caching the
value on success and panicking (as `unwrap` on `env::var`'s `Err`) when
the variable is absent. -/
def derefStatic (env : Env) (name : String) (cache : Option String) :
    Except String (String × Option String) :=
  match cache with
  | some v => .ok (v, some v)
  | none =>
      match env name with
      | some v => .ok (v, some v)
      | none => .error ("environment variable not found: " ++ name)

/-- `basic_auth` as executed at runtime: dereference both statics, then
Base64-encode `id:secret`. -/
def basicAuthStateful (env : Env) (g : OAuthGlobals) :
    Except String (String × OAuthGlobals) :=
  match derefStatic env "OAUTH_NOTION_CLIENT_ID" g.notion_client_id with
  | .error p => .error p
  | .ok (cid, c1) =>
      match derefStatic env "OAUTH_NOTION_CLIENT_SECRET" g.notion_client_secret with
      | .error p => .error p
      | .ok (cs, c2) =>
          .ok (basic_auth cid cs,
               { notion_client_id := c1, notion_client_secret := c2 })

/-- The whole `finalize` call as executed at runtime: build the request
(dereferencing the globals inside `basic_auth`), hand it to the executor,
then process the response.  The outer `Except String` is a panic of the
lazy initializers. -/
def finalizeStateful (env : Env) (g : OAuthGlobals) (connection : Connection)
    (related_credentials : Option Credential) (code redirect_uri : String)
    (executor : Request → Except ProviderError Json) :
    Except String (Except ProviderError FinalizeResult × OAuthGlobals) :=
  match basicAuthStateful env g with
  | .error p => .error p
  | .ok (auth, g1) =>
      .ok (finalize connection related_credentials code redirect_uri
             (executor (requestWithAuth auth code redirect_uri)), g1)

/-! Sample values used by the concrete witnesses. -/

/-- A concrete connection for witness instantiations. -/
def connSample : Connection :=
  { provider := .Notion, created_at := 0, status := "pending" }

/-- An environment carrying no variable at all. -/
def emptyEnv : Env := fun _ => none

/-- An environment holding both Notion client variables. -/
def envSample : Env := fun name =>
  if name = "OAUTH_NOTION_CLIENT_ID" then some "id"
  else if name = "OAUTH_NOTION_CLIENT_SECRET" then some "secret"
  else none

/-- The vendor response of the end-to-end scenario of §8. -/
def respScenario : Json :=
  .obj [("access_token", .str "tok_x"), ("workspace_id", .str "w1")]

/-- A vendor response lacking `access_token`. -/
def respNoToken : Json :=
  .obj [("error", .str "invalid_grant")]

/-- A vendor response carrying `refresh_token` and `expires_in` alongside
`access_token`. -/
def respWithRefresh : Json :=
  .obj [("access_token", .str "tok"), ("refresh_token", .str "r1"),
        ("expires_in", .num 3600)]

/-! Helper lemmas about scrubbing, shared by several results below. -/

/-- Filtering out the `access_token` entries twice is the same as once. -/
theorem scrubFields_idem (fields : List (String × Json)) :
    scrubFields (scrubFields fields) = scrubFields fields := by
  simp [scrubFields, List.filter_filter]

/-- No entry of a scrubbed field list carries the key `access_token`. -/
theorem any_scrubFields (fields : List (String × Json)) :
    (scrubFields fields).any (fun p => p.fst == "access_token") = false := by
  induction fields with
  | nil => rfl
  | cons p rest ih =>
      by_cases hp : p.fst = "access_token" <;>
        simp_all [scrubFields, List.filter_cons]

/-- Scrubbing preserves the lookup of every key other than `access_token`. -/
theorem lookupKey_scrubFields_ne (fields : List (String × Json)) (k : String)
    (hk : k ≠ "access_token") :
    lookupKey (scrubFields fields) k = lookupKey fields k := by
  induction fields with
  | nil => rfl
  | cons p rest ih =>
      rcases p with ⟨key, v⟩
      by_cases hp : key = "access_token"
      · subst hp
        simp_all [scrubFields, List.filter_cons, lookupKey, Ne.symm hk]
      · by_cases hpk : key = k <;>
          simp_all [scrubFields, List.filter_cons, lookupKey]

/-- Scrubbing removes the `access_token` key entirely. -/
theorem lookupKey_scrubFields_tok (fields : List (String × Json)) :
    lookupKey (scrubFields fields) "access_token" = none := by
  induction fields with
  | nil => rfl
  | cons p rest ih =>
      by_cases hp : p.fst = "access_token" <;>
        simp_all [scrubFields, List.filter_cons, lookupKey]

/-! Sanity checks of the Base64 embedding against RFC 4648 test-style
vectors, covering the no-padding, one-pad and two-pad shapes. -/

theorem base64_id_secret : basic_auth "id" "secret" = "aWQ6c2VjcmV0" := by decide

theorem base64_one_pad : base64Encode (utf8Bytes "ab") = "YWI=" := by decide

theorem base64_two_pad : base64Encode (utf8Bytes "a") = "YQ==" := by decide

/-! Claim theorems. -/

/-- C1: for every code and redirectUri, if the vendor response carries a
string field `access_token = T`, then `finalize` succeeds with
`access_token = T`, the input `code` and `redirect_uri` echoed back
unchanged, `access_token_expiry = none`, `refresh_token = none`, and the
full vendor response as `raw_json`. -/
theorem finalize_success_shape (conn : Connection) (creds : Option Credential)
    (code redirect_uri t : String) (response : Json)
    (h : response.getStr "access_token" = some t) :
    finalize conn creds code redirect_uri (.ok response) =
      .ok { redirect_uri := redirect_uri, code := code, access_token := t,
            access_token_expiry := none, refresh_token := none,
            raw_json := response } := by
  simp [finalize, h]

/-- Witness for C1, at the end-to-end scenario of §8: code `abc123`,
redirect URI `https://app/cb`, vendor response carrying `tok_x`. -/
theorem finalize_success_shape_witness :
    respScenario.getStr "access_token" = some "tok_x" ∧
    finalize connSample none "abc123" "https://app/cb" (.ok respScenario) =
      .ok { redirect_uri := "https://app/cb", code := "abc123",
            access_token := "tok_x", access_token_expiry := none,
            refresh_token := none, raw_json := respScenario } :=
  ⟨rfl, finalize_success_shape connSample none "abc123" "https://app/cb"
    "tok_x" respScenario rfl⟩

/-- C2: for every code and redirectUri, a vendor response with no string
field `access_token` makes `finalize` fail with the
`InvalidResponseError` kind, not a transport error and not a success. -/
theorem finalize_missing_token_error (conn : Connection)
    (creds : Option Credential) (code redirect_uri : String) (response : Json)
    (h : response.getStr "access_token" = none) :
    finalize conn creds code redirect_uri (.ok response) =
      .error (.InvalidResponseError
        "Missing `access_token` in response from Notion") := by
  simp [finalize, h]

/-- Witness for C2, at a vendor response holding only an error field. -/
theorem finalize_missing_token_error_witness :
    respNoToken.getStr "access_token" = none ∧
    finalize connSample none "abc123" "https://app/cb" (.ok respNoToken) =
      .error (.InvalidResponseError
        "Missing `access_token` in response from Notion") :=
  ⟨rfl, finalize_missing_token_error connSample none "abc123"
    "https://app/cb" respNoToken rfl⟩

/-- C3: for every connection and optional credential, `refresh` fails with
`ActionNotSupportedError` carrying a non-empty human-readable reason, and
hands no request to the executor. -/
theorem refresh_not_supported (conn : Connection) (creds : Option Credential) :
    refresh conn creds =
      (.error (.ActionNotSupportedError "Notion access tokens do not expire"),
       ([] : List Request)) ∧
    "Notion access tokens do not expire" ≠ "" :=
  ⟨rfl, by decide⟩

/-- C4: scrubbing is idempotent on JSON objects, and a scrubbed object
never carries the key `access_token`. -/
theorem scrubbed_raw_json_idempotent (fields : List (String × Json)) (w : Json)
    (h : scrubbed_raw_json (.obj fields) = .ok w) :
    scrubbed_raw_json w = .ok w ∧ w.hasKey "access_token" = false := by
  simp only [scrubbed_raw_json] at h
  cases h
  constructor
  · simp [scrubbed_raw_json, scrubFields_idem]
  · simp [Json.hasKey, any_scrubFields]

/-- Witness for C4, at an object carrying an `access_token` entry. -/
theorem scrubbed_raw_json_idempotent_witness :
    scrubbed_raw_json (.obj [("access_token", .str "t"), ("ws", .str "w")]) =
      .ok (.obj [("ws", .str "w")]) ∧
    scrubbed_raw_json (.obj [("ws", .str "w")]) = .ok (.obj [("ws", .str "w")]) ∧
    (Json.obj [("ws", .str "w")]).hasKey "access_token" = false := by
  refine ⟨rfl, ?_⟩
  exact scrubbed_raw_json_idempotent [("access_token", .str "t"), ("ws", .str "w")]
    (.obj [("ws", .str "w")]) rfl

/-- C5: scrubbing any non-object JSON value (array, string, number,
boolean or null) fails with the `MalformedPayloadError` kind; being a
pure function of its input, it mutates nothing. -/
theorem scrubbed_raw_json_non_object (v : Json) (h : v.isObj = false) :
    scrubbed_raw_json v =
      .error (.MalformedPayloadError "Invalid raw_json, not an object") := by
  cases v <;> simp_all [Json.isObj, scrubbed_raw_json]

/-- Witness for C5, at a JSON array. -/
theorem scrubbed_raw_json_non_object_witness :
    (Json.arr []).isObj = false ∧
    scrubbed_raw_json (.arr []) =
      .error (.MalformedPayloadError "Invalid raw_json, not an object") :=
  ⟨rfl, scrubbed_raw_json_non_object (.arr []) rfl⟩

/-- C6: the token-exchange request built by `finalize` is a POST to the
Notion token endpoint with the authorization-code JSON body, the two JSON
content headers, and an `Authorization` header equal to `Basic` followed
by the Base64 encoding of `client_id:client_secret`. -/
theorem finalize_request_shape (client_id client_secret code redirect_uri : String) :
    finalizeRequest client_id client_secret code redirect_uri =
      { method := "POST",
        url := "https://api.notion.com/v1/oauth/token",
        headers := [("Accept", "application/json"),
                    ("Content-Type", "application/json"),
                    ("Authorization",
                     "Basic " ++ base64Encode
                       (utf8Bytes (client_id ++ ":" ++ client_secret)))],
        body := some (.obj [("grant_type", .str "authorization_code"),
                            ("code", .str code),
                            ("redirect_uri", .str redirect_uri)]) } :=
  rfl

/-- Counterexample to C7 as stated: with an environment lacking both
client variables, startup succeeds with nothing read (lazy_static reads
no configuration at process startup), and the absence surfaces as a
panic during the first `finalize` call — a runtime failure inside a
Provider operation, not a fatal startup condition. -/
theorem env_read_lazy_counterexample :
    startup emptyEnv = .ok startupGlobals ∧
    startupGlobals.notion_client_id = none ∧
    startupGlobals.notion_client_secret = none ∧
    finalizeStateful emptyEnv startupGlobals connSample none "abc123"
        "https://app/cb" (fun _ => .ok .null) =
      .error "environment variable not found: OAUTH_NOTION_CLIENT_ID" :=
  ⟨rfl, rfl, rfl, rfl⟩

/-- C7 as amended: the client id and secret are read from the environment
at most once, on the first dereference, and are cached immutably: once
the caches are filled, every later `finalize` call ignores the ambient
environment entirely (equal results under any two environments) and
leaves the caches unchanged. -/
theorem env_read_once_after_first_use (env e2 e3 : Env) (cid cs : String)
    (conn : Connection) (creds : Option Credential)
    (code redirect_uri : String) (executor : Request → Except ProviderError Json)
    (h1 : env "OAUTH_NOTION_CLIENT_ID" = some cid)
    (h2 : env "OAUTH_NOTION_CLIENT_SECRET" = some cs) :
    basicAuthStateful env startupGlobals =
      .ok (basic_auth cid cs,
           { notion_client_id := some cid, notion_client_secret := some cs }) ∧
    finalizeStateful e2
        { notion_client_id := some cid, notion_client_secret := some cs }
        conn creds code redirect_uri executor =
      finalizeStateful e3
        { notion_client_id := some cid, notion_client_secret := some cs }
        conn creds code redirect_uri executor ∧
    basicAuthStateful e2
        { notion_client_id := some cid, notion_client_secret := some cs } =
      .ok (basic_auth cid cs,
           { notion_client_id := some cid, notion_client_secret := some cs }) := by
  refine ⟨?_, rfl, rfl⟩
  simp [basicAuthStateful, derefStatic, startupGlobals, h1, h2]

/-- Witness for the amended C7, at a concrete environment holding both
variables, compared against two unrelated later environments. -/
theorem env_read_once_after_first_use_witness :
    envSample "OAUTH_NOTION_CLIENT_ID" = some "id" ∧
    envSample "OAUTH_NOTION_CLIENT_SECRET" = some "secret" ∧
    (basicAuthStateful envSample startupGlobals =
      .ok (basic_auth "id" "secret",
           { notion_client_id := some "id",
             notion_client_secret := some "secret" }) ∧
    finalizeStateful emptyEnv
        { notion_client_id := some "id", notion_client_secret := some "secret" }
        connSample none "abc123" "https://app/cb" (fun _ => .ok .null) =
      finalizeStateful (fun _ => some "other")
        { notion_client_id := some "id", notion_client_secret := some "secret" }
        connSample none "abc123" "https://app/cb" (fun _ => .ok .null) ∧
    basicAuthStateful emptyEnv
        { notion_client_id := some "id", notion_client_secret := some "secret" } =
      .ok (basic_auth "id" "secret",
           { notion_client_id := some "id",
             notion_client_secret := some "secret" })) :=
  ⟨rfl, rfl,
   env_read_once_after_first_use envSample emptyEnv (fun _ => some "other")
     "id" "secret" connSample none "abc123" "https://app/cb"
     (fun _ => .ok .null) rfl rfl⟩

/-- C8: every successful `finalize` carries `access_token_expiry = none`
and `refresh_token = none` unconditionally, even when the vendor response
holds `expires_in` or `refresh_token` fields. -/
theorem finalize_drops_expiry_and_refresh (conn : Connection)
    (creds : Option Credential) (code redirect_uri t : String) (response : Json)
    (h : response.getStr "access_token" = some t) :
    Except.map (fun r => (r.access_token_expiry, r.refresh_token))
        (finalize conn creds code redirect_uri (.ok response)) =
      .ok ((none : Option Nat), (none : Option String)) := by
  simp [finalize, h, Except.map]

/-- Witness for C8, at a vendor response carrying both `refresh_token`
and `expires_in`. -/
theorem finalize_drops_expiry_and_refresh_witness :
    respWithRefresh.getStr "access_token" = some "tok" ∧
    Except.map (fun r => (r.access_token_expiry, r.refresh_token))
        (finalize connSample none "c1" "u1" (.ok respWithRefresh)) =
      .ok ((none : Option Nat), (none : Option String)) :=
  ⟨rfl, finalize_drops_expiry_and_refresh connSample none "c1" "u1" "tok"
    respWithRefresh rfl⟩

/-- C9: on a JSON object, scrubbing removes exactly the key
`access_token`: the lookup of every other key is unchanged, and the
lookup of `access_token` in the output is `none`. -/
theorem scrubbed_raw_json_frame (fields : List (String × Json)) (k : String)
    (w : Json) (hk : k ≠ "access_token")
    (h : scrubbed_raw_json (.obj fields) = .ok w) :
    w.lookup k = lookupKey fields k ∧ w.lookup "access_token" = none := by
  simp only [scrubbed_raw_json] at h
  cases h
  exact ⟨by simp [Json.lookup, lookupKey_scrubFields_ne fields k hk],
         by simp [Json.lookup, lookupKey_scrubFields_tok]⟩

/-- Witness for C9, at an object carrying `access_token` and
`refresh_token`, looked up at `refresh_token`. -/
theorem scrubbed_raw_json_frame_witness :
    ("refresh_token" : String) ≠ "access_token" ∧
    scrubbed_raw_json
        (.obj [("access_token", .str "t"), ("refresh_token", .str "r")]) =
      .ok (.obj [("refresh_token", .str "r")]) ∧
    ((Json.obj [("refresh_token", .str "r")]).lookup "refresh_token" =
        lookupKey [("access_token", .str "t"), ("refresh_token", .str "r")]
          "refresh_token" ∧
      (Json.obj [("refresh_token", .str "r")]).lookup "access_token" = none) :=
  ⟨by decide, rfl,
   scrubbed_raw_json_frame
     [("access_token", .str "t"), ("refresh_token", .str "r")]
     "refresh_token" (.obj [("refresh_token", .str "r")])
     (by decide) rfl⟩

/-- C10: neither `finalize` nor `refresh` depends on the connection or the
related credentials: for a fixed code, redirectUri and vendor response,
any two calls differing only in those arguments return equal results. -/
theorem finalize_refresh_ignore_connection (c1 c2 : Connection)
    (cr1 cr2 : Option Credential) (code redirect_uri : String)
    (response : Except ProviderError Json) :
    finalize c1 cr1 code redirect_uri response =
      finalize c2 cr2 code redirect_uri response ∧
    refresh c1 cr1 = refresh c2 cr2 :=
  ⟨rfl, rfl⟩

end NotionOAuth
